import Mathlib

/-!
Verification of the directory-role resolution and pipeline-orchestration core
of `meson.py` (version 0.1-research).

The Python source is embedded shallowly:
* the filesystem operations the script performs (`os.path.abspath`, `os.stat`,
  `os.path.samefile`, `open` for the marker probe) become fields of an explicit
  `FS` record;
* each `raise RuntimeError(...)` site becomes a constructor of the `Err`
  inductive, with `Err.message` reproducing the Python format strings;
* fallible code returns `Except Err _`.
-/

/-- The portion of a Python `os.stat_result` that `meson.py` reads:
the directory bit of `st_mode` (via `stat.S_ISDIR`) and the filesystem-entity
identity `(st_dev, st_ino)` that `os.path.samefile` compares (collapsed to a
single `Nat`). -/
structure FileStat where
  isDir : Bool
  ino : Nat
deriving DecidableEq, Repr

/-- Shallow model of the filesystem as `meson.py` observes it:
`abspath` is `os.path.abspath` (pure canonicalization), `stat` is `os.stat`
(`none` models the `OSError` raised on a nonexistent path), and `openOk p`
tells whether `open(p, 'r')` succeeds (the marker-file probe of
`has_builder_file` - a failing `open` raises `IOError`, which the probe
catches). -/
structure FS where
  abspath : String → String
  stat : String → Option FileStat
  openOk : String → Bool

/-- Error kinds of the core, one constructor per `raise` site of `meson.py`
plus the raw `OSError` that `os.stat` / `os.path.samefile` raise on a missing
path, the `IndexError` that `options.prefix[0]` raises on an empty string, and
opaque collaborator failures (spec section 7). -/
inductive Err where
  | notADirectory (path : String)
  | sameDirectory
  | ambiguousMarker
  | missingMarker
  | invalidPrefix
  | indexError
  | unknownGenerator (name : String)
  | osError (path : String)
  | envFailure
  | buildFailure
  | interpreterFailure
  | generatorFailure
deriving DecidableEq, Repr

/-- The diagnostic text of each `RuntimeError` in `meson.py`, reproduced from
the source format strings (collaborator failures are opaque and carry no fixed
text; for those and the raw Python exceptions we give the exception class
name). -/
def Err.message : Err → String
  | .notADirectory p => p ++ " is not a directory"
  | .sameDirectory =>
      "Source and build directories must not be the same. Create a pristine build directory."
  | .ambiguousMarker => "Both directories contain a build file project.build."
  | .missingMarker => "Neither directory contains a build file project.build."
  | .invalidPrefix => "--prefix must be an absolute path."
  | .indexError => "IndexError"
  | .unknownGenerator n => "Unknown generator \"" ++ n ++ "\"."
  | .osError p => "OSError: " ++ p
  | .envFailure => "environment failure"
  | .buildFailure => "build failure"
  | .interpreterFailure => "interpreter failure"
  | .generatorFailure => "generator failure"

/-- Modelled from the spec: the constant `environment.builder_filename` lives
in the excluded `environment` module (not under `src/`); the spec's end-to-end
scenario names the marker file `project.build`. -/
def builder_filename : String := "project.build"

/-- Python `os.path.join(d, f)` for a non-absolute second component: insert
a `/` separator unless `d` already ends with one. -/
def joinPath (d f : String) : String :=
  if d.data.getLast? = some '/' then d ++ f else d ++ "/" ++ f

/-- A path string is syntactically absolute when it starts with `/` (the test
`options.prefix[0] != '/'` and the POSIX `os.path.abspath` contract). -/
def isAbsolute (p : String) : Bool :=
  match p.data with
  | [] => false
  | c :: _ => c == '/'

/-- Embedding of `BuilderApp.has_builder_file(dirname)`: try to `open` the
marker file inside `dirname`; return whether the open succeeded. -/
def has_builder_file (fs : FS) (dirname : String) : Bool :=
  fs.openOk (joinPath dirname builder_filename)

/-- Embedding of `BuilderApp.validate_dirs(dir1, dir2)`, line for line:
canonicalize both inputs with `os.path.abspath`; `os.stat` each canonical path
and require the directory bit (a missing path makes `os.stat` raise `OSError`,
modelled by the `none` branch); `os.path.samefile(dir1, dir2)` (which stats
the original arguments and compares entity identity); then probe the marker
file in `ndir1` and `ndir2` per the source's nesting. -/
def validate_dirs (fs : FS) (dir1 dir2 : String) : Except Err (String × String) :=
  let ndir1 := fs.abspath dir1
  let ndir2 := fs.abspath dir2
  match fs.stat ndir1 with
  | none => .error (.osError ndir1)
  | some s1 =>
    if !s1.isDir then .error (.notADirectory dir1)
    else
      match fs.stat ndir2 with
      | none => .error (.osError ndir2)
      | some s2 =>
        if !s2.isDir then .error (.notADirectory dir2)
        else
          match fs.stat dir1 with
          | none => .error (.osError dir1)
          | some t1 =>
            match fs.stat dir2 with
            | none => .error (.osError dir2)
            | some t2 =>
              if t1.ino == t2.ino then .error .sameDirectory
              else if has_builder_file fs ndir1 then
                if has_builder_file fs ndir2 then .error .ambiguousMarker
                else .ok (ndir1, ndir2)
              else if has_builder_file fs ndir2 then .ok (ndir2, ndir1)
              else .error .missingMarker

/-- The option object built by the `OptionParser` of `meson.py`: one field per
`add_option` destination (`dest=`). The Python keyword `prefix` is spelled
`prefix_` here. -/
structure Options where
  prefix_ : String
  libdir : String
  bindir : String
  includedir : String
  datadir : String
  mandir : String
  generator : String
  buildtype : String
  strip : Bool
  coverage : Bool
deriving DecidableEq, Repr

/-- The `default=` values of the ten `parser.add_option` calls in `meson.py`,
i.e. the options object produced when no override is given on the command
line. -/
def defaultOptions : Options where
  prefix_ := "/usr/local"
  libdir := "lib"
  bindir := "bin"
  includedir := "include"
  datadir := "share"
  mandir := "share/man"
  generator := "ninja"
  buildtype := "debug"
  strip := false
  coverage := false

/-- The state `BuilderApp.__init__` leaves behind on success. -/
structure BuilderApp where
  source_dir : String
  build_dir : String
  builder_script_file : String
  options : Options
deriving DecidableEq, Repr

/-- Embedding of `BuilderApp.__init__(dir1, dir2, script_file, options)`: first
`validate_dirs`, then the check `options.prefix[0] != '/'` (note the order:
the prefix test runs only after directory validation succeeded; on an empty
prefix string the subscript itself raises `IndexError`). -/
def BuilderApp.init (fs : FS) (dir1 dir2 script_file : String) (options : Options) :
    Except Err BuilderApp :=
  match validate_dirs fs dir1 dir2 with
  | .error e => .error e
  | .ok (s, b) =>
    match options.prefix_.data with
    | [] => .error .indexError
    | c :: _ =>
      if c ≠ '/' then .error .invalidPrefix
      else .ok { source_dir := s, build_dir := b,
                 builder_script_file := script_file, options := options }

/-- The backend generator handles of `meson.py`: `generators.ShellGenerator`
and `generators.NinjaGenerator`. -/
inductive Generator where
  | shell
  | ninja
deriving DecidableEq, Repr

/-- The generator dispatch of `BuilderApp.generate`, the
`if options.generator == 'shell' ... elif ... == 'ninja' ... else raise`
chain: a pure lookup from the generator name string. -/
def selectGenerator (name : String) : Except Err Generator :=
  if name = "shell" then .ok .shell
  else if name = "ninja" then .ok .ninja
  else .error (.unknownGenerator name)

/-- One observable collaborator invocation of the pipeline, in the order the
body of `BuilderApp.generate` makes them. -/
inductive Event where
  | envInit
  | buildInit
  | interpRun
  | generatorSelect
  | generatorGenerate
deriving DecidableEq, Repr

/-- Modelled from the spec: the collaborator modules `environment`, `build`,
`interpreter` and `generators` are excluded from `src/`; per spec sections 4.3
and 6 each collaborator stage is an opaque synchronous call that either
succeeds or fails opaquely, so each is modelled by one success flag. -/
structure Collaborators where
  envOk : Bool
  buildOk : Bool
  interpOk : Bool
  genOk : Bool
deriving DecidableEq, Repr

/-- The collaborator invocations of `BuilderApp.generate` in source order. -/
def stageOrder : List Event :=
  [.envInit, .buildInit, .interpRun, .generatorSelect, .generatorGenerate]

/-- Embedding of `BuilderApp.generate()`: construct the environment, the build container,
run the interpreter, dispatch on `options.generator`, and run the chosen
generator; each statement runs only if the previous one did not raise.
Returns the trace of collaborator invocations that were entered (a failing
stage is still entered) and the error that aborted the pipeline, if any. -/
def generate (c : Collaborators) (options : Options) : List Event × Option Err :=
  if !c.envOk then ([.envInit], some .envFailure)
  else if !c.buildOk then ([.envInit, .buildInit], some .buildFailure)
  else if !c.interpOk then ([.envInit, .buildInit, .interpRun], some .interpreterFailure)
  else
    match selectGenerator options.generator with
    | .error e => ([.envInit, .buildInit, .interpRun, .generatorSelect], some e)
    | .ok _ =>
      if !c.genOk then (stageOrder, some .generatorFailure)
      else (stageOrder, none)

/-- The whole run after argument parsing: `BuilderApp(dir1, dir2, ...)`
followed by `builder.generate()`; if construction (directory validation or
the prefix check) raises, `generate` is never called and no collaborator is
invoked. -/
def runApp (fs : FS) (dir1 dir2 script_file : String) (options : Options)
    (c : Collaborators) : List Event × Option Err :=
  match BuilderApp.init fs dir1 dir2 script_file options with
  | .error e => ([], some e)
  | .ok _ => generate c options

/-- The two lines the `__main__` block prints before `sys.exit(1)` on a
positional-argument usage error, with `prog` standing for `sys.argv[0]`. -/
def usageLines (prog : String) : List String :=
  [prog ++ " <source directory> <build directory>",
   "If you omit either directory, the current directory is substituted."]

/-- The `__main__` positional-argument handling, on the `args` list returned
by `parser.parse_args(sys.argv)` (so `args[0]` is the program name and the
option strings have been consumed): one or two positional directories are
accepted, the missing second one defaulting to `'.'`; `len(args) == 1` or
`len(args) > 3` prints the two usage lines and exits with code 1. The
`args = []` branch is unreachable since `sys.argv` is never empty. -/
def mainDirs (args : List String) : Except (Nat × List String) (String × String) :=
  if args.length = 1 ∨ args.length > 3 then
    .error (1, usageLines (args.headD ""))
  else
    match args with
    | _prog :: d1 :: rest => .ok (d1, rest.headD ".")
    | _ => .error (1, [])

/-- The default options with `prefix` overridden to a relative path, as the
spec's scenario `prefix="relative/path"` does. -/
def relOptions : Options := { defaultOptions with prefix_ := "relative/path" }

-- Concrete filesystems used to witness the theorems below.

/-- Lookup-table `os.stat`. -/
def statTable (entries : List (String × FileStat)) : String → Option FileStat :=
  fun p => (entries.find? (fun e => e.1 == p)).map (fun e => e.2)

/-- Two directories `/a` (entity 1) and `/b` (entity 2); the marker file is
present only in `/a`. Paths are given already canonical, so `abspath` is the
identity. -/
def fsOneMarker : FS where
  abspath := fun p => p
  stat := statTable [("/a", ⟨true, 1⟩), ("/b", ⟨true, 2⟩)]
  openOk := fun p => p == "/a/project.build"

/-- Two directories `/a` and `/b`, the marker file present in both. -/
def fsTwoMarkers : FS where
  abspath := fun p => p
  stat := statTable [("/a", ⟨true, 1⟩), ("/b", ⟨true, 2⟩)]
  openOk := fun p => p == "/a/project.build" || p == "/b/project.build"

/-- Two directories `/a` and `/b`, the marker file present in neither. -/
def fsNoMarker : FS where
  abspath := fun p => p
  stat := statTable [("/a", ⟨true, 1⟩), ("/b", ⟨true, 2⟩)]
  openOk := fun _ => false

/-- Here `/a` is a directory and `/link` is a symlink to it: two different
path strings whose stat results carry the same entity identity. -/
def fsSymlink : FS where
  abspath := fun p => p
  stat := statTable [("/a", ⟨true, 1⟩), ("/link", ⟨true, 1⟩)]
  openOk := fun p => p == "/a/project.build" || p == "/link/project.build"

/-- Here `/f` is a regular file (not a directory), `/b` is a directory, and
`/nope` does not exist. -/
def fsFileMix : FS where
  abspath := fun p => p
  stat := statTable [("/f", ⟨false, 3⟩), ("/b", ⟨true, 2⟩)]
  openOk := fun _ => false

example : validate_dirs fsOneMarker "/a" "/b" = .ok ("/a", "/b") := by rfl
example : validate_dirs fsOneMarker "/b" "/a" = .ok ("/a", "/b") := by rfl
example : validate_dirs fsTwoMarkers "/a" "/b" = .error .ambiguousMarker := by rfl
example : validate_dirs fsNoMarker "/a" "/b" = .error .missingMarker := by rfl
example : validate_dirs fsSymlink "/a" "/link" = .error .sameDirectory := by rfl
example : validate_dirs fsFileMix "/f" "/b" = .error (.notADirectory "/f") := by rfl
example : validate_dirs fsFileMix "/nope" "/b" = .error (.osError "/nope") := by rfl
example : mainDirs ["meson.py"] =
    .error (1, ["meson.py <source directory> <build directory>",
                "If you omit either directory, the current directory is substituted."]) := by rfl
example : mainDirs ["meson.py", "/a"] = .ok ("/a", ".") := by rfl
example : mainDirs ["meson.py", "/a", "/b"] = .ok ("/a", "/b") := by rfl
example : mainDirs ["meson.py", "/a", "/b", "/c"] =
    .error (1, ["meson.py <source directory> <build directory>",
                "If you omit either directory, the current directory is substituted."]) := by rfl
example : selectGenerator "bogus" = .error (.unknownGenerator "bogus") := by rfl
example : generate ⟨true, true, false, true⟩ defaultOptions =
    ([.envInit, .buildInit, .interpRun], some .interpreterFailure) := by rfl
example : runApp fsNoMarker "/a" "/b" "/m.py" defaultOptions ⟨true, true, true, true⟩ =
    ([], some .missingMarker) := by rfl
example : runApp fsOneMarker "/a" "/b" "/m.py" defaultOptions ⟨true, true, true, true⟩ =
    (stageOrder, none) := by rfl

/-- C6: constructing the options object with no overrides yields exactly the
defaults prefix=/usr/local, libdir=lib, bindir=bin, includedir=include,
datadir=share, mandir=share/man, generator=ninja, buildtype=debug,
strip=false, coverage=false. -/
theorem default_configuration_values :
    defaultOptions.prefix_ = "/usr/local" ∧ defaultOptions.libdir = "lib" ∧
    defaultOptions.bindir = "bin" ∧ defaultOptions.includedir = "include" ∧
    defaultOptions.datadir = "share" ∧ defaultOptions.mandir = "share/man" ∧
    defaultOptions.generator = "ninja" ∧ defaultOptions.buildtype = "debug" ∧
    defaultOptions.strip = false ∧ defaultOptions.coverage = false :=
  ⟨rfl, rfl, rfl, rfl, rfl, rfl, rfl, rfl, rfl, rfl⟩

/-- C7: generator selection is a closed enumeration: "shell" selects the
shell backend, "ninja" the ninja backend (two distinct handles), and every
other name fails with UnknownGeneratorError carrying that name. -/
theorem generator_selection_closed :
    selectGenerator "shell" = .ok .shell ∧
    selectGenerator "ninja" = .ok .ninja ∧
    Generator.shell ≠ Generator.ninja ∧
    ∀ name : String, name ≠ "shell" → name ≠ "ninja" →
      selectGenerator name = .error (.unknownGenerator name) := by
  refine ⟨rfl, rfl, by decide, ?_⟩
  intro name h1 h2
  simp [selectGenerator, h1, h2]

/-- Witness for C7 at the concrete name "bogus". -/
theorem generator_selection_closed_witness :
    selectGenerator "bogus" = .error (.unknownGenerator "bogus") :=
  generator_selection_closed.2.2.2 "bogus" (by decide) (by decide)

/-- C8 counterexample: invoking with zero positional directory arguments
(`args = [prog]`) is a usage error with exit code 1, not a valid invocation
defaulting both directories to the current directory as the claim states. -/
theorem cli_zero_positional_usage_error_cex :
    mainDirs ["meson.py"] = .error (1, usageLines "meson.py") := rfl

/-- C8 (amended): one or two positional directories are accepted (an omitted
second directory defaults to the current directory "."); zero positional
directories, like more than two, is a usage error that prints a two-line
usage message and exits with code 1. -/
theorem cli_positional_arity (prog d1 d2 : String) :
    mainDirs [prog, d1] = .ok (d1, ".") ∧
    mainDirs [prog, d1, d2] = .ok (d1, d2) ∧
    (mainDirs [prog] = .error (1, usageLines prog) ∧ (usageLines prog).length = 2) ∧
    ∀ args : List String, args.length > 3 →
      mainDirs args = .error (1, usageLines (args.headD "")) ∧
      (usageLines (args.headD "")).length = 2 := by
  refine ⟨by simp [mainDirs], by simp [mainDirs], ⟨by simp [mainDirs], rfl⟩, ?_⟩
  intro args h
  exact ⟨by simp [mainDirs, Or.inr h], rfl⟩

/-- Witness for C8 at concrete command lines. -/
theorem cli_positional_arity_witness :
    mainDirs ["meson.py", "/a"] = .ok ("/a", ".") ∧
    mainDirs ["meson.py", "/a", "/b", "/c"] = .error (1, usageLines "meson.py") :=
  ⟨(cli_positional_arity "meson.py" "/a" "/b").1,
   ((cli_positional_arity "meson.py" "/a" "/b").2.2.2
      ["meson.py", "/a", "/b", "/c"] (by decide)).1⟩

/-- C1 counterexample: with `prefix="relative/path"` and two valid marker-less
directories, construction fails with MissingMarkerError - directory
resolution (with its filesystem accesses) runs first, so the claimed
InvalidPrefixError-before-any-filesystem-access does not happen. -/
theorem invalid_prefix_not_checked_first_cex :
    BuilderApp.init fsNoMarker "/a" "/b" "/m.py" relOptions = .error .missingMarker := rfl

/-- C1 (amended): when directory validation succeeds and the prefix string is
nonempty and does not start with '/', construction fails with
InvalidPrefixError; the prefix check runs only after validate_dirs, so any
directory-validation error takes precedence over the prefix check. -/
theorem invalid_prefix_after_validate_dirs :
    (∀ (fs : FS) (dir1 dir2 script_file : String) (o : Options) (pr : String × String)
       (c : Char) (rest : List Char),
       validate_dirs fs dir1 dir2 = .ok pr → o.prefix_.data = c :: rest → c ≠ '/' →
       BuilderApp.init fs dir1 dir2 script_file o = .error .invalidPrefix) ∧
    (∀ (fs : FS) (dir1 dir2 script_file : String) (o : Options) (e : Err),
       validate_dirs fs dir1 dir2 = .error e →
       BuilderApp.init fs dir1 dir2 script_file o = .error e) := by
  constructor
  · intro fs d1 d2 sf o pr c rest hv hp hc
    obtain ⟨s, b⟩ := pr
    simp [BuilderApp.init, hv, hp, hc]
  · intro fs d1 d2 sf o e hv
    simp [BuilderApp.init, hv]

/-- Witness for C1 (amended): on `/a`, `/b` with the marker in `/a` and
`prefix="relative/path"`, construction fails with InvalidPrefixError. -/
theorem invalid_prefix_after_validate_dirs_witness :
    BuilderApp.init fsOneMarker "/a" "/b" "/m.py" relOptions = .error .invalidPrefix :=
  invalid_prefix_after_validate_dirs.1 fsOneMarker "/a" "/b" "/m.py" relOptions
    ("/a", "/b") 'r' "elative/path".data rfl rfl (by decide)

/-- C2 counterexample: on the nonexistent path `/nope`, validate_dirs fails
with the raw filesystem error that `os.stat` raises (OSError), not with the
uniform NotADirectoryError the claim requires. -/
theorem missing_path_leaks_os_error_cex :
    validate_dirs fsFileMix "/nope" "/b" = .error (.osError "/nope") ∧
    validate_dirs fsFileMix "/nope" "/b" ≠ .error (.notADirectory "/nope") :=
  ⟨rfl, fun h => Err.noConfusion (Except.error.inj h)⟩

/-- C2 (amended): for every path that exists but is not a directory (in either
argument position), validate_dirs fails with NotADirectoryError carrying the
original input path, and does so for every possible marker-file state (the
openOk field is universally quantified, so no marker probing influences the
result); a path that does not exist at all instead surfaces the raw OSError
of `os.stat`. -/
theorem not_a_directory_uniform :
    (∀ (fs : FS) (g : String → Bool) (dir1 dir2 : String) (s1 : FileStat),
       fs.stat (fs.abspath dir1) = some s1 → s1.isDir = false →
       validate_dirs { fs with openOk := g } dir1 dir2 = .error (.notADirectory dir1)) ∧
    (∀ (fs : FS) (g : String → Bool) (dir1 dir2 : String) (s1 s2 : FileStat),
       fs.stat (fs.abspath dir1) = some s1 → s1.isDir = true →
       fs.stat (fs.abspath dir2) = some s2 → s2.isDir = false →
       validate_dirs { fs with openOk := g } dir1 dir2 = .error (.notADirectory dir2)) ∧
    (∀ (fs : FS) (dir1 dir2 : String),
       fs.stat (fs.abspath dir1) = none →
       validate_dirs fs dir1 dir2 = .error (.osError (fs.abspath dir1))) := by
  refine ⟨?_, ?_, ?_⟩
  · intro fs g d1 d2 s1 h1 hd1
    simp [validate_dirs, h1, hd1]
  · intro fs g d1 d2 s1 s2 h1 hd1 h2 hd2
    simp [validate_dirs, h1, hd1, h2, hd2]
  · intro fs d1 d2 h1
    simp [validate_dirs, h1]

/-- Witness for C2 (amended): the regular file `/f` is rejected as
NotADirectoryError even when every marker probe would succeed. -/
theorem not_a_directory_uniform_witness :
    validate_dirs { fsFileMix with openOk := fun _ => true } "/f" "/b" =
      .error (.notADirectory "/f") :=
  not_a_directory_uniform.1 fsFileMix (fun _ => true) "/f" "/b" ⟨false, 3⟩ rfl rfl

/-- C5: when the two arguments denote the same filesystem entity (equal
stat identity, so also for two different spellings such as a path and a
symlink to it) and both pass the directory-type checks, validate_dirs fails
with SameDirectoryError for every possible marker-file state (openOk is
universally quantified, so marker state never influences the error); and the
same-entity check runs after the directory-type checks: when the first
argument fails the type check, NotADirectoryError wins even though the
entities coincide. -/
theorem same_entity_rejected :
    (∀ (fs : FS) (g : String → Bool) (dir1 dir2 : String) (s1 s2 t1 t2 : FileStat),
       fs.stat (fs.abspath dir1) = some s1 → s1.isDir = true →
       fs.stat (fs.abspath dir2) = some s2 → s2.isDir = true →
       fs.stat dir1 = some t1 → fs.stat dir2 = some t2 → t1.ino = t2.ino →
       validate_dirs { fs with openOk := g } dir1 dir2 = .error .sameDirectory) ∧
    (∀ (fs : FS) (dir1 dir2 : String) (s1 t1 t2 : FileStat),
       fs.stat (fs.abspath dir1) = some s1 → s1.isDir = false →
       fs.stat dir1 = some t1 → fs.stat dir2 = some t2 → t1.ino = t2.ino →
       validate_dirs fs dir1 dir2 = .error (.notADirectory dir1)) := by
  constructor
  · intro fs g d1 d2 s1 s2 t1 t2 h1 hd1 h2 hd2 ht1 ht2 hino
    simp [validate_dirs, h1, hd1, h2, hd2, ht1, ht2, hino]
  · intro fs d1 d2 s1 t1 t2 h1 hd1 ht1 ht2 hino
    simp [validate_dirs, h1, hd1]

/-- Witness for C5: the symlink pair `/a`, `/link` (same stat identity, both
directories, markers present in both) is rejected as SameDirectoryError. -/
theorem same_entity_rejected_witness :
    validate_dirs fsSymlink "/a" "/link" = .error .sameDirectory :=
  same_entity_rejected.1 fsSymlink fsSymlink.openOk "/a" "/link"
    ⟨true, 1⟩ ⟨true, 1⟩ ⟨true, 1⟩ ⟨true, 1⟩ rfl rfl rfl rfl rfl rfl rfl

/-- C3: for two valid, distinct directories of which exactly the first
contains the marker file, validate_dirs succeeds with the marker directory as
source_dir and the other as build_dir, and swapping the argument order yields
the very same pair (swap-symmetry; instantiating dir1/dir2 both ways covers
the (T,F) and (F,T) rows of the marker truth table). -/
theorem single_marker_resolution_swap_symmetric :
    ∀ (fs : FS) (dir1 dir2 : String) (s1 s2 t1 t2 : FileStat),
      fs.stat (fs.abspath dir1) = some s1 → s1.isDir = true →
      fs.stat (fs.abspath dir2) = some s2 → s2.isDir = true →
      fs.stat dir1 = some t1 → fs.stat dir2 = some t2 → t1.ino ≠ t2.ino →
      has_builder_file fs (fs.abspath dir1) = true →
      has_builder_file fs (fs.abspath dir2) = false →
      validate_dirs fs dir1 dir2 = .ok (fs.abspath dir1, fs.abspath dir2) ∧
      validate_dirs fs dir2 dir1 = .ok (fs.abspath dir1, fs.abspath dir2) := by
  intro fs d1 d2 s1 s2 t1 t2 h1 hd1 h2 hd2 ht1 ht2 hino hm1 hm2
  have hbeq : (t1.ino == t2.ino) = false := beq_eq_false_iff_ne.mpr hino
  have hbeq2 : (t2.ino == t1.ino) = false := beq_eq_false_iff_ne.mpr (Ne.symm hino)
  constructor
  · simp [validate_dirs, h1, hd1, h2, hd2, ht1, ht2, hbeq, hm1, hm2]
  · simp [validate_dirs, h1, hd1, h2, hd2, ht1, ht2, hbeq2, hm1, hm2]

/-- Witness for C3: with the marker only in `/a`, both argument orders
resolve to source `/a`, build `/b`. -/
theorem single_marker_resolution_swap_symmetric_witness :
    validate_dirs fsOneMarker "/a" "/b" = .ok ("/a", "/b") ∧
    validate_dirs fsOneMarker "/b" "/a" = .ok ("/a", "/b") :=
  single_marker_resolution_swap_symmetric fsOneMarker "/a" "/b"
    ⟨true, 1⟩ ⟨true, 2⟩ ⟨true, 1⟩ ⟨true, 2⟩ rfl rfl rfl rfl rfl rfl (by decide) rfl rfl

/-- C4: for two valid, distinct directories, marker in both means
AmbiguousMarkerError, marker in neither means MissingMarkerError, and these
two are the only failure outcomes possible once the directory-type and
same-entity checks have passed. -/
theorem marker_truth_table_failures :
    ∀ (fs : FS) (dir1 dir2 : String) (s1 s2 t1 t2 : FileStat),
      fs.stat (fs.abspath dir1) = some s1 → s1.isDir = true →
      fs.stat (fs.abspath dir2) = some s2 → s2.isDir = true →
      fs.stat dir1 = some t1 → fs.stat dir2 = some t2 → t1.ino ≠ t2.ino →
      (has_builder_file fs (fs.abspath dir1) = true →
        has_builder_file fs (fs.abspath dir2) = true →
        validate_dirs fs dir1 dir2 = .error .ambiguousMarker) ∧
      (has_builder_file fs (fs.abspath dir1) = false →
        has_builder_file fs (fs.abspath dir2) = false →
        validate_dirs fs dir1 dir2 = .error .missingMarker) ∧
      (∀ e : Err, validate_dirs fs dir1 dir2 = .error e →
        e = .ambiguousMarker ∨ e = .missingMarker) := by
  intro fs d1 d2 s1 s2 t1 t2 h1 hd1 h2 hd2 ht1 ht2 hino
  have hbeq : (t1.ino == t2.ino) = false := beq_eq_false_iff_ne.mpr hino
  refine ⟨?_, ?_, ?_⟩
  · intro hm1 hm2
    simp [validate_dirs, h1, hd1, h2, hd2, ht1, ht2, hbeq, hm1, hm2]
  · intro hm1 hm2
    simp [validate_dirs, h1, hd1, h2, hd2, ht1, ht2, hbeq, hm1, hm2]
  · intro e he
    cases hm1 : has_builder_file fs (fs.abspath d1) <;>
      cases hm2 : has_builder_file fs (fs.abspath d2) <;>
      simp [validate_dirs, h1, hd1, h2, hd2, ht1, ht2, hbeq, hm1, hm2] at he <;>
      simp [he]

/-- Witness for C4: markers in both directories give AmbiguousMarkerError,
markers in neither give MissingMarkerError. -/
theorem marker_truth_table_failures_witness :
    validate_dirs fsTwoMarkers "/a" "/b" = .error .ambiguousMarker ∧
    validate_dirs fsNoMarker "/a" "/b" = .error .missingMarker :=
  ⟨(marker_truth_table_failures fsTwoMarkers "/a" "/b"
      ⟨true, 1⟩ ⟨true, 2⟩ ⟨true, 1⟩ ⟨true, 2⟩ rfl rfl rfl rfl rfl rfl (by decide)).1 rfl rfl,
   (marker_truth_table_failures fsNoMarker "/a" "/b"
      ⟨true, 1⟩ ⟨true, 2⟩ ⟨true, 1⟩ ⟨true, 2⟩ rfl rfl rfl rfl rfl rfl (by decide)).2.1 rfl rfl⟩

/-- C10: whenever validate_dirs succeeds (for a filesystem on which
`os.path.abspath` behaves as canonicalization: stat-invariant and producing
absolute paths), the returned pair is exactly the two canonicalized inputs in
one of the two orders, both returned paths are absolute, and source differs
from build. -/
theorem resolver_returns_canonicalized_inputs :
    ∀ (fs : FS) (dir1 dir2 s b : String),
      fs.stat (fs.abspath dir1) = fs.stat dir1 →
      fs.stat (fs.abspath dir2) = fs.stat dir2 →
      isAbsolute (fs.abspath dir1) = true →
      isAbsolute (fs.abspath dir2) = true →
      validate_dirs fs dir1 dir2 = .ok (s, b) →
      ((s = fs.abspath dir1 ∧ b = fs.abspath dir2) ∨
       (s = fs.abspath dir2 ∧ b = fs.abspath dir1)) ∧
      isAbsolute s = true ∧ isAbsolute b = true ∧ s ≠ b := by
  intro fs d1 d2 s b hst1 hst2 habs1 habs2 hok
  simp only [validate_dirs] at hok
  split at hok
  · exact Except.noConfusion hok
  case _ s1 h1 =>
    split at hok
    · exact Except.noConfusion hok
    case _ hd1 =>
      split at hok
      · exact Except.noConfusion hok
      case _ s2 h2 =>
        split at hok
        · exact Except.noConfusion hok
        case _ hd2 =>
          split at hok
          · exact Except.noConfusion hok
          case _ t1 ht1 =>
            split at hok
            · exact Except.noConfusion hok
            case _ t2 ht2 =>
              split at hok
              · exact Except.noConfusion hok
              case _ hino =>
                have hino2 : t1.ino ≠ t2.ino := by simpa using hino
                have hne : fs.abspath d1 ≠ fs.abspath d2 := by
                  intro heq
                  apply hino2
                  have hss : fs.stat d1 = fs.stat d2 := by rw [← hst1, heq, hst2]
                  rw [ht1, ht2] at hss
                  injection hss with h
                  rw [h]
                split at hok
                case _ hbf1 =>
                  split at hok
                  · exact Except.noConfusion hok
                  case _ hbf2 =>
                    obtain ⟨hs, hb⟩ : fs.abspath d1 = s ∧ fs.abspath d2 = b := by
                      simpa using hok
                    subst hs
                    subst hb
                    exact ⟨Or.inl ⟨rfl, rfl⟩, habs1, habs2, hne⟩
                case _ hbf1 =>
                  split at hok
                  case _ hbf2 =>
                    obtain ⟨hs, hb⟩ : fs.abspath d2 = s ∧ fs.abspath d1 = b := by
                      simpa using hok
                    subst hs
                    subst hb
                    exact ⟨Or.inr ⟨rfl, rfl⟩, habs2, habs1, fun h => hne h.symm⟩
                  case _ hbf2 =>
                    exact Except.noConfusion hok

/-- Witness for C10 at the concrete resolution of `/a`, `/b` with the marker
in `/a`. -/
theorem resolver_returns_canonicalized_inputs_witness :
    (("/a" = fsOneMarker.abspath "/a" ∧ "/b" = fsOneMarker.abspath "/b") ∨
     ("/a" = fsOneMarker.abspath "/b" ∧ "/b" = fsOneMarker.abspath "/a")) ∧
    isAbsolute "/a" = true ∧ isAbsolute "/b" = true ∧ "/a" ≠ ("/b" : String) :=
  resolver_returns_canonicalized_inputs fsOneMarker "/a" "/b" "/a" "/b" rfl rfl rfl rfl rfl

/-- C9: the pipeline is strictly staged and gated. If directory resolution
fails, the run invokes no collaborator at all and propagates that error; if
the interpreter stage fails, generator selection and generation are never
reached; the collaborator trace is always a left-aligned portion of the
fixed stage order; and when every collaborator succeeds and the generator
name is recognized, all five invocations happen in order with no error. -/
theorem pipeline_stage_gating :
    (∀ (fs : FS) (dir1 dir2 script_file : String) (o : Options) (c : Collaborators) (e : Err),
       validate_dirs fs dir1 dir2 = .error e →
       runApp fs dir1 dir2 script_file o c = ([], some e)) ∧
    (∀ (c : Collaborators) (o : Options), c.interpOk = false →
       Event.generatorSelect ∉ (generate c o).1 ∧
       Event.generatorGenerate ∉ (generate c o).1) ∧
    (∀ (c : Collaborators) (o : Options),
       (generate c o).1 = stageOrder.take (generate c o).1.length) ∧
    (∀ (c : Collaborators) (o : Options) (gen : Generator),
       c.envOk = true → c.buildOk = true → c.interpOk = true → c.genOk = true →
       selectGenerator o.generator = .ok gen →
       generate c o = (stageOrder, none)) := by
  refine ⟨?_, ?_, ?_, ?_⟩
  · intro fs d1 d2 sf o c e hv
    simp [runApp, BuilderApp.init, hv]
  · intro c o h
    obtain ⟨ce, cb, ci, cg⟩ := c
    cases ce <;> cases cb <;> simp_all [generate]
  · intro c o
    obtain ⟨ce, cb, ci, cg⟩ := c
    cases ce <;> cases cb <;> cases ci <;> cases cg <;>
      rcases hsel : selectGenerator o.generator with e | g <;>
      simp [generate, hsel, stageOrder]
  · intro c o gen he hb hi hg hsel
    obtain ⟨ce, cb, ci, cg⟩ := c
    simp_all [generate, hsel]

/-- Witness for C9: with no marker anywhere, the run stops at directory
resolution with MissingMarkerError and the collaborator trace is empty. -/
theorem pipeline_stage_gating_witness :
    runApp fsNoMarker "/a" "/b" "/m.py" defaultOptions ⟨true, true, true, true⟩ =
      ([], some .missingMarker) :=
  pipeline_stage_gating.1 fsNoMarker "/a" "/b" "/m.py" defaultOptions
    ⟨true, true, true, true⟩ .missingMarker rfl
